import Mathlib

/-!
Shallow embedding of the FitScreenJS scaling library core:
the scale calculator and aspect-ratio helpers (src/utils/helpers.js),
the display-mode resolver (src/core/modes.js), the design-size resolver
(src/core/detector.js, `determineDesignSize`), the `Scaler` mode state
machine and the `FitScreenJS` orchestrator teardown logic.

Numbers are modelled as rationals (ℚ).  JavaScript division by zero
(yielding ±Infinity or NaN) is made explicit at the single place the
source can hit it, in the aspect-ratio comparison of the design-size
resolver (`jsDivGt`).  Element references are modelled by the geometry
the code reads off them (`offsetWidth`/`offsetHeight`), i.e. an
`Option Size`; an absent element is `none`.
-/

namespace FitScreen

/-- A width/height pair, the `{ width, height }` objects of the source. -/
structure Size where
  width : ℚ
  height : ℚ
deriving DecidableEq, Repr

/-- The two display modes of `MODES` in src/core/modes.js:
`'proportional'` and `'fullscreen'`. -/
inductive Mode where
  | proportional
  | fullscreen
deriving DecidableEq, Repr

/-- A JavaScript value as far as `validateMode` inspects one: a string,
a number, a boolean, `null` or `undefined`. -/
inductive JsVal where
  | vstr (s : String)
  | vnum (q : ℚ)
  | vbool (b : Bool)
  | vnull
  | vundef
deriving DecidableEq, Repr

/-- Embedding of `calculateScale` (src/utils/helpers.js line 41):
`widthRatio = containerWidth / contentWidth`,
`heightRatio = containerHeight / contentHeight`, returning the max of
the two ratios when `cover` is true and the min otherwise. -/
def calculateScale (containerWidth containerHeight contentWidth contentHeight : ℚ)
    (cover : Bool) : ℚ :=
  let widthRatio := containerWidth / contentWidth
  let heightRatio := containerHeight / contentHeight
  if cover then max widthRatio heightRatio else min widthRatio heightRatio

/-- Embedding of `calculateNonProportionalScale`
(examples/dist/fitscreen.esm.js): the independent pair
`scaleX = containerWidth / contentWidth`,
`scaleY = containerHeight / contentHeight`. -/
def calculateNonProportionalScale (containerWidth containerHeight contentWidth contentHeight : ℚ) :
    ℚ × ℚ :=
  (containerWidth / contentWidth, containerHeight / contentHeight)

/-- Embedding of `validateMode` (src/core/modes.js line 15).  A falsy or
non-string input returns the default `'proportional'`; otherwise the
input is lowercased and matched against the two mode strings, anything
unrecognized falling back to `'proportional'`.  The only falsy string
is the empty string. -/
def validateMode (mode : JsVal) : Mode :=
  match mode with
  | .vstr s =>
    if s = "" then Mode.proportional
    else
      let normalizedMode := s.data.map Char.toLower
      if normalizedMode = "proportional".data then Mode.proportional
      else if normalizedMode = "fullscreen".data then Mode.fullscreen
      else Mode.proportional
  | _ => Mode.proportional

/-- Numeric value of a digit list read most-significant first. -/
def digitsVal (ds : List Char) : ℕ :=
  ds.foldl (fun a c => a * 10 + (c.toNat - 48)) 0

/-- JavaScript `String.prototype.split` with a single-character
separator: every occurrence of the separator starts a new (possibly
empty) part, and the empty string splits to `[""]`. -/
def splitOnChar (sep : Char) : List Char → List (List Char)
  | [] => [[]]
  | c :: rest =>
    if c = sep then [] :: splitOnChar sep rest
    else
      match splitOnChar sep rest with
      | [] => [[c]]
      | h :: t => (c :: h) :: t

/-- Model of JavaScript `parseFloat` on decimal syntax: skip leading
whitespace, optional sign, integer digits, optional fraction digits,
optional exponent; the longest valid numeric prefix is taken and
trailing garbage ignored; `none` models `NaN` (no digit consumed). -/
def jsParseFloat (cs0 : List Char) : Option ℚ :=
  let cs := cs0.dropWhile (fun c => c.isWhitespace)
  let (neg, cs1) : Bool × List Char :=
    match cs with
    | '-' :: r => (true, r)
    | '+' :: r => (false, r)
    | r => (false, r)
  let ip := cs1.takeWhile (fun c => c.isDigit)
  let rest1 := cs1.dropWhile (fun c => c.isDigit)
  let (fp, rest2) : List Char × List Char :=
    match rest1 with
    | '.' :: r => (r.takeWhile (fun c => c.isDigit), r.dropWhile (fun c => c.isDigit))
    | r => ([], r)
  if ip.isEmpty ∧ fp.isEmpty then none
  else
    let mantissa : ℤ := (digitsVal ip * 10 ^ fp.length + digitsVal fp : ℕ)
    let m : ℤ := if neg then -mantissa else mantissa
    let e : ℤ :=
      match rest2 with
      | c :: r =>
        if c = 'e' ∨ c = 'E' then
          let (esgn, r2) : ℤ × List Char :=
            match r with
            | '-' :: r3 => (-1, r3)
            | '+' :: r3 => (1, r3)
            | r3 => (1, r3)
          let ed := r2.takeWhile (fun c => c.isDigit)
          if ed.isEmpty then 0 else esgn * (digitsVal ed : ℤ)
        else 0
      | [] => 0
    if 0 ≤ e then
      some (mkRat (m * 10 ^ e.toNat) (10 ^ fp.length))
    else
      some (mkRat m (10 ^ fp.length * 10 ^ (-e).toNat))

/-- Embedding of `parseAspectRatio` (src/utils/helpers.js line 6).  A
falsy or non-string input (`none`, or the empty string) yields `null`;
the string is split on `':'`, both halves parsed as floats, and `null`
returned when either fails to parse or the denominator is zero. -/
def parseAspectRatio (ratio : Option String) : Option ℚ :=
  match ratio with
  | none => none
  | some s =>
    if s = "" then none
    else
      match splitOnChar ':' s.data with
      | [a, b] =>
        match jsParseFloat a, jsParseFloat b with
        | some width, some height =>
          if height = 0 then none else some (width / height)
        | _, _ => none
      | _ => none

/-- JavaScript `Math.round`: round half toward positive infinity. -/
def jsRound (q : ℚ) : ℤ := ⌊q + 1 / 2⌋

/-- JavaScript comparison `w / h > r` including division by zero:
`w / 0` is `+Infinity` for `w > 0` (greater than every finite `r`),
`-Infinity` for `w < 0`, and `NaN` for `w = 0` (every comparison
false). -/
def jsDivGt (w h r : ℚ) : Bool :=
  if h = 0 then decide (0 < w) else decide (r < w / h)

/-- The aspect-ratio branch of `determineDesignSize`
(src/core/detector.js lines 157–180): when the container is wider than
the target ratio the height is limiting (`width = round(height * ratio)`),
otherwise the width is limiting (`height = round(width / ratio)`). -/
def ratioDesignSize (containerSize : Size) (aspectRatio : ℚ) : Size :=
  if jsDivGt containerSize.width containerSize.height aspectRatio then
    ⟨(jsRound (containerSize.height * aspectRatio) : ℤ), containerSize.height⟩
  else
    ⟨containerSize.width, (jsRound (containerSize.width / aspectRatio) : ℤ)⟩

/-- The configuration fields `determineDesignSize` (src/core/detector.js
line 130) destructures from its `options` argument.  Numeric-or-absent
fields are `Option ℚ` (absent models `undefined`); `aspectRatio` is the
pre-parsed numeric ratio (the orchestrator normalizes string ratios via
`parseAspectRatio` before this point). -/
structure DSOptions where
  designWidth : Option ℚ
  designHeight : Option ℚ
  aspectRatio : Option ℚ
  autoDetect : Bool
  detectedWidth : Option ℚ
  detectedHeight : Option ℚ
deriving DecidableEq, Repr

/-- Source 1 of `determineDesignSize`: the explicitly configured design
size, taken iff `designWidth && designHeight && !isNaN(..) && both > 0`
(a number is truthy iff nonzero, so the guard amounts to both present
and positive). -/
def dsExplicit (opts : DSOptions) : Option Size :=
  match opts.designWidth, opts.designHeight with
  | some w, some h => if 0 < w ∧ 0 < h then some ⟨w, h⟩ else none
  | _, _ => none

/-- Source 2 of `determineDesignSize`: the configured aspect ratio, used
iff present, numeric and positive, combined with the container size (or
the detected screen size when no container is bound). -/
def dsRatio (opts : DSOptions) (screen : Size) (container : Option Size) : Option Size :=
  match opts.aspectRatio with
  | some r => if 0 < r then some (ratioDesignSize (container.getD screen) r) else none
  | none => none

/-- Source 3 of `determineDesignSize`: a previously detected size stored
back into the options, used iff both coordinates are present (truthy)
and positive. -/
def dsDetected (opts : DSOptions) : Option Size :=
  match opts.detectedWidth, opts.detectedHeight with
  | some w, some h => if 0 < w ∧ 0 < h then some ⟨w, h⟩ else none
  | _, _ => none

/-- Source 4 of `determineDesignSize`: with `autoDetect` enabled and a
content element present, the measured content size
(`detectElementSize(content)`, a DOM measurement modelled as a
parameter), used iff both its dimensions are positive. -/
def dsMeasured (opts : DSOptions) (contentMeasure : Option Size) : Option Size :=
  if opts.autoDetect then
    match contentMeasure with
    | some m => if 0 < m.width ∧ 0 < m.height then some m else none
    | none => none
  else none

/-- Source 5 of `determineDesignSize`: the container size itself, used
iff a container is bound and both its dimensions are positive. -/
def dsContainer (container : Option Size) : Option Size :=
  match container with
  | some c => if 0 < c.width ∧ 0 < c.height then some c else none
  | none => none

/-- The hard-coded fallback `DEFAULT_DESIGN` (src/core/detector.js):
1920 by 1080. -/
def DEFAULT_DESIGN : Size := ⟨1920, 1080⟩

/-- Embedding of `determineDesignSize` (src/core/detector.js line 130):
the early-return cascade over the five candidate sources, falling back
to the 1920 by 1080 default.  `screen` models `detectScreenSize()`
(window geometry), `container` the bound container element's offset
size, `contentMeasure` the result of `detectElementSize(content)`
(with `none` for a null content element). -/
def determineDesignSize (opts : DSOptions) (screen : Size) (container : Option Size)
    (contentMeasure : Option Size) : Size :=
  match dsExplicit opts with
  | some s => s
  | none =>
  match dsRatio opts screen container with
  | some s => s
  | none =>
  match dsDetected opts with
  | some s => s
  | none =>
  match dsMeasured opts contentMeasure with
  | some s => s
  | none =>
  match dsContainer container with
  | some s => s
  | none => DEFAULT_DESIGN

namespace Scaler

/-- The state held by a `Scaler` instance (unnamed scaler module,
revision with independent scale factors).  `container` is the bound
container element modelled by its offset size (`none` while unbound),
`content` whether a content element is bound, and `onModeChangePresent`
whether `options.onModeChange` is a function. -/
structure State where
  container : Option Size
  content : Bool
  designSize : Size
  currentScale : ℚ
  currentScaleX : ℚ
  currentScaleY : ℚ
  currentMode : Mode
  isInit : Bool
  onModeChangePresent : Bool
deriving DecidableEq, Repr

/-- The `Scaler` constructor state: no elements bound, design size
0 by 0, scales 1, mode from the (already validated) options, the
initialized flag false. -/
def mkState (mode : Mode) (onModeChangePresent : Bool) : State :=
  { container := none
    content := false
    designSize := ⟨0, 0⟩
    currentScale := 1
    currentScaleX := 1
    currentScaleY := 1
    currentMode := mode
    isInit := false
    onModeChangePresent := onModeChangePresent }

/-- Embedding of `Scaler.calculateCurrentScale` (revision with
independent scale factors, lines 90–118).  Guard: an unbound container
or a falsy (zero) design width or height returns the neutral scale 1.
In fullscreen mode the independent pair is stored into
`currentScaleX`/`currentScaleY`; the returned scalar is
`calculateScale` with `cover` iff fullscreen. -/
def calculateCurrentScale (st : State) : State × ℚ :=
  match st.container with
  | none => (st, 1)
  | some c =>
    if st.designSize.width = 0 ∨ st.designSize.height = 0 then (st, 1)
    else
      let st1 :=
        if st.currentMode = Mode.fullscreen then
          let p := calculateNonProportionalScale c.width c.height
            st.designSize.width st.designSize.height
          { st with currentScaleX := p.1, currentScaleY := p.2 }
        else st
      (st1, calculateScale c.width c.height st.designSize.width st.designSize.height
        (decide (st.currentMode = Mode.fullscreen)))

/-- Embedding of `Scaler.applyScaling`: a no-op without both elements;
otherwise stores the computed scale (style application and the
`onResize` callback are external effects outside the state). -/
def applyScaling (st : State) : State :=
  if st.container.isSome ∧ st.content then
    let r := calculateCurrentScale st
    { r.1 with currentScale := r.2 }
  else st

/-- Embedding of `Scaler.refresh`: when both elements are bound, apply
scaling and mark the machine initialized; otherwise do nothing. -/
def refresh (st : State) : State :=
  if st.container.isSome ∧ st.content then
    { applyScaling st with isInit := true }
  else st

/-- Embedding of `Scaler.setElements`: store both element bindings. -/
def setElements (container : Option Size) (content : Bool) (st : State) : State :=
  { st with container := container, content := content }

/-- Embedding of `Scaler.setDesignSize`: accept and refresh only when
both dimensions are positive, otherwise leave everything unchanged.
The boolean reports whether `refresh` was invoked. -/
def setDesignSize (width height : ℚ) (st : State) : State × Bool :=
  if 0 < width ∧ 0 < height then
    (refresh { st with designSize := ⟨width, height⟩ }, true)
  else (st, false)

/-- Embedding of `Scaler.setMode`: store the new mode; when it differs
from the previous mode and the machine is initialized, refresh and (if
an `onModeChange` callback is present) emit a mode-change notification
carrying the new mode.  The result is the new state, whether `refresh`
was invoked, and the emitted notification. -/
def setMode (mode : Mode) (st : State) : State × Bool × Option Mode :=
  let previousMode := st.currentMode
  let st1 := { st with currentMode := mode }
  if previousMode ≠ mode ∧ st1.isInit then
    (refresh st1, true, if st.onModeChangePresent then some mode else none)
  else (st1, false, none)

end Scaler

namespace FitScreenJS

/-- Embedding of `FitScreenJS.setMode`: validate the raw mode input via
`validateMode`, then delegate to `Scaler.setMode`. -/
def setMode (mode : JsVal) (st : Scaler.State) : Scaler.State × Bool × Option Mode :=
  Scaler.setMode (validateMode mode) st

/-- The orchestrator flags relevant to teardown: `isInitialized`
(listener registered by `applyTo`) and `isDestroyed`. -/
structure FitState where
  isInit : Bool
  isDestroyed : Bool
deriving DecidableEq, Repr

/-- Embedding of `FitScreenJS.destroy`: deregister the resize listener
and set the destroyed flag only when initialized and not yet destroyed.
The boolean reports whether `removeEventListener` was called. -/
def destroy (st : FitState) : FitState × Bool :=
  if st.isInit ∧ ¬ st.isDestroyed then
    ({ st with isDestroyed := true }, true)
  else (st, false)

/-- Total number of listener deregistrations performed by `n`
consecutive `destroy` calls starting from `st`. -/
def destroyCount : ℕ → FitState → ℕ
  | 0, _ => 0
  | n + 1, st =>
    let r := destroy st
    (if r.2 then 1 else 0) + destroyCount n r.1

end FitScreenJS

/-- C1: for every viewport size (vw, vh) and content size (cw, ch) with
cw > 0 and ch > 0, `calculateScale` returns `max (vw/cw) (vh/ch)` when
`cover` is true and `min (vw/cw) (vh/ch)` when `cover` is false; in
particular `calculateScale 800 600 1600 900 false = 0.5`,
`calculateScale 800 600 1000 500 false = 0.8`,
`calculateScale 800 600 1600 900 true = 600/900` and
`calculateScale 800 600 1000 500 true = 1.2`. -/
theorem calculateScale_spec :
    (∀ vw vh cw ch : ℚ, 0 < cw → 0 < ch →
      calculateScale vw vh cw ch true = max (vw / cw) (vh / ch) ∧
      calculateScale vw vh cw ch false = min (vw / cw) (vh / ch)) ∧
    calculateScale 800 600 1600 900 false = 1 / 2 ∧
    calculateScale 800 600 1000 500 false = 8 / 10 ∧
    calculateScale 800 600 1600 900 true = 600 / 900 ∧
    calculateScale 800 600 1000 500 true = 12 / 10 := by
  refine ⟨fun vw vh cw ch _ _ => ⟨rfl, rfl⟩, ?_, ?_, ?_, ?_⟩ <;>
    norm_num [calculateScale, min_def, max_def]

/-- Witness for C1 at viewport 800 by 600 and content 1600 by 900. -/
theorem calculateScale_spec_witness :
    (0 : ℚ) < 1600 ∧ (0 : ℚ) < 900 ∧
    (calculateScale 800 600 1600 900 true = max (800 / 1600) (600 / 900) ∧
      calculateScale 800 600 1600 900 false = min (800 / 1600) (600 / 900)) :=
  ⟨by norm_num, by norm_num,
    calculateScale_spec.1 800 600 1600 900 (by norm_num) (by norm_num)⟩

/-- C6: for every string input "a:b" where both halves parse as floats
and the denominator is nonzero, `parseAspectRatio` returns a/b; for the
empty string, a null/undefined/non-string input, a string without
exactly one colon, non-numeric parts, or a zero denominator, it
returns `none`. -/
theorem parseAspectRatio_spec :
    (∀ (s : String) (a b : List Char) (w h : ℚ), splitOnChar ':' s.data = [a, b] →
      jsParseFloat a = some w → jsParseFloat b = some h → h ≠ 0 →
      parseAspectRatio (some s) = some (w / h)) ∧
    parseAspectRatio none = none ∧
    parseAspectRatio (some "") = none ∧
    (∀ s : String, (splitOnChar ':' s.data).length ≠ 2 → parseAspectRatio (some s) = none) ∧
    (∀ (s : String) (a b : List Char), splitOnChar ':' s.data = [a, b] →
      jsParseFloat a = none ∨ jsParseFloat b = none → parseAspectRatio (some s) = none) ∧
    (∀ (s : String) (a b : List Char), splitOnChar ':' s.data = [a, b] →
      jsParseFloat b = some 0 → parseAspectRatio (some s) = none) := by
  refine ⟨?_, rfl, rfl, ?_, ?_, ?_⟩
  · intro s a b w h hsplit ha hb hb0
    by_cases hs : s = ""
    · subst hs; simp [splitOnChar] at hsplit
    · simp [parseAspectRatio, hs, hsplit, ha, hb, hb0]
  · intro s hlen
    by_cases hs : s = ""
    · subst hs; rfl
    · rcases h2 : splitOnChar ':' s.data with _ | ⟨a, _ | ⟨b, _ | _⟩⟩
      · simp [parseAspectRatio, hs, h2]
      · simp [parseAspectRatio, hs, h2]
      · exact absurd (by simp [h2]) hlen
      · simp [parseAspectRatio, hs, h2]
  · intro s a b hsplit hnone
    by_cases hs : s = ""
    · subst hs; rfl
    · rcases hnone with hna | hnb
      · simp [parseAspectRatio, hs, hsplit, hna]
      · rcases ha : jsParseFloat a with _ | w <;>
          simp [parseAspectRatio, hs, hsplit, ha, hnb]
  · intro s a b hsplit hb
    by_cases hs : s = ""
    · subst hs; rfl
    · rcases ha : jsParseFloat a with _ | w <;>
        simp [parseAspectRatio, hs, hsplit, ha, hb]

/-- Witness for C6 on the string "16:9". -/
theorem parseAspectRatio_spec_witness :
    (splitOnChar ':' "16:9".data = [['1', '6'], ['9']]) ∧
    parseAspectRatio (some "16:9") = some (16 / 9) :=
  ⟨by decide,
    parseAspectRatio_spec.1 "16:9" ['1', '6'] ['9'] 16 9 (by decide) (by decide) (by decide)
      (by norm_num)⟩

/-- C7: `validateMode` is total and returns one of exactly two values:
the matching variant for the two canonical mode strings in any letter
case, and the default `proportional` for any other input, including
non-string values. -/
theorem validateMode_spec :
    (∀ v : JsVal, validateMode v = Mode.proportional ∨ validateMode v = Mode.fullscreen) ∧
    (∀ s : String, s.data.map Char.toLower = "proportional".data →
      validateMode (.vstr s) = Mode.proportional) ∧
    (∀ s : String, s.data.map Char.toLower = "fullscreen".data →
      validateMode (.vstr s) = Mode.fullscreen) ∧
    (∀ s : String, s.data.map Char.toLower ≠ "proportional".data →
      s.data.map Char.toLower ≠ "fullscreen".data →
      validateMode (.vstr s) = Mode.proportional) ∧
    (∀ q : ℚ, validateMode (.vnum q) = Mode.proportional) ∧
    (∀ b : Bool, validateMode (.vbool b) = Mode.proportional) ∧
    validateMode .vnull = Mode.proportional ∧
    validateMode .vundef = Mode.proportional := by
  refine ⟨?_, ?_, ?_, ?_, fun _ => rfl, fun _ => rfl, rfl, rfl⟩
  · intro v
    cases v with
    | vstr s =>
      simp only [validateMode]
      split_ifs <;> first | exact Or.inl rfl | exact Or.inr rfl
    | vnum q => exact Or.inl rfl
    | vbool b => exact Or.inl rfl
    | vnull => exact Or.inl rfl
    | vundef => exact Or.inl rfl
  · intro s h
    by_cases hs : s = ""
    · subst hs; rfl
    · simp [validateMode, hs, h]
  · intro s h
    by_cases hs : s = ""
    · subst hs; exact absurd h (by decide)
    · simp [validateMode, hs, h]
  · intro s hp hf
    by_cases hs : s = ""
    · subst hs; rfl
    · simp [validateMode, hs, hp, hf]

/-- Witness for C7 on the uppercase string "FULLSCREEN". -/
theorem validateMode_spec_witness :
    ("FULLSCREEN".data.map Char.toLower = "fullscreen".data) ∧
    validateMode (.vstr "FULLSCREEN") = Mode.fullscreen :=
  ⟨by decide, validateMode_spec.2.2.1 "FULLSCREEN" (by decide)⟩

/-- Helper: `Scaler.refresh` never changes the stored design size. -/
theorem refresh_designSize (st : Scaler.State) :
    (Scaler.refresh st).designSize = st.designSize := by
  rcases hc : st.container with _ | c
  · simp [Scaler.refresh, Scaler.applyScaling, Scaler.calculateCurrentScale, hc]
  · simp only [Scaler.refresh, Scaler.applyScaling, Scaler.calculateCurrentScale, hc]
    split_ifs <;> simp

/-- A state whose bound container has zero width: the source guard in
`calculateCurrentScale` checks the design size but not the container
geometry, so this state is not short-circuited to the neutral scale. -/
def degenerateViewportState : Scaler.State :=
  { container := some ⟨0, 600⟩
    content := true
    designSize := ⟨1000, 500⟩
    currentScale := 1
    currentScaleX := 1
    currentScaleY := 1
    currentMode := Mode.proportional
    isInit := true
    onModeChangePresent := false }

/-- C2 counterexample: with a bound container of zero width and a
positive design size, `calculateCurrentScale` returns the
division-derived value 0, not the neutral scale 1 the claim asserts
for all degenerate geometry. -/
theorem calculateCurrentScale_zero_viewport_cex :
    (Scaler.calculateCurrentScale degenerateViewportState).2 = 0 ∧
    (Scaler.calculateCurrentScale degenerateViewportState).2 ≠ 1 := by
  have h0 : (Scaler.calculateCurrentScale degenerateViewportState).2 = 0 := by
    norm_num [Scaler.calculateCurrentScale, degenerateViewportState, calculateScale,
      min_def]
    decide
  exact ⟨h0, by rw [h0]; norm_num⟩

/-- C2 amended: `calculateCurrentScale` returns the neutral scale 1
exactly in the cases the source guards — an unbound container, or a
design size with zero (or unset, stored as zero) width or height; a
bound container with zero width or height is not guarded. -/
theorem calculateCurrentScale_neutral_guard (st : Scaler.State)
    (h : st.container = none ∨ st.designSize.width = 0 ∨ st.designSize.height = 0) :
    (Scaler.calculateCurrentScale st).2 = 1 := by
  rcases hc : st.container with _ | c
  · simp [Scaler.calculateCurrentScale, hc]
  · have hd : st.designSize.width = 0 ∨ st.designSize.height = 0 := by
      rcases h with h | h | h
      · rw [hc] at h; cases h
      · exact Or.inl h
      · exact Or.inr h
    simp [Scaler.calculateCurrentScale, hc, hd]

/-- Witness for the C2 amended theorem: the freshly constructed state
(no container, zero design size) yields the neutral scale 1. -/
theorem calculateCurrentScale_neutral_guard_witness :
    (Scaler.calculateCurrentScale (Scaler.mkState Mode.proportional false)).2 = 1 :=
  calculateCurrentScale_neutral_guard (Scaler.mkState Mode.proportional false)
    (Or.inl rfl)

/-- C5: `setMode` normalizes its input via `validateMode`; when the
normalized mode differs from the current mode and the machine is
initialized it refreshes and emits the mode-change notification with
the new mode, otherwise it stores the mode silently with no refresh
and no notification. -/
theorem setMode_spec :
    (∀ (v : JsVal) (st : Scaler.State),
      validateMode v ≠ st.currentMode → st.isInit = true →
      FitScreenJS.setMode v st =
        (Scaler.refresh { st with currentMode := validateMode v }, true,
          if st.onModeChangePresent then some (validateMode v) else none)) ∧
    (∀ (v : JsVal) (st : Scaler.State),
      validateMode v = st.currentMode ∨ st.isInit = false →
      FitScreenJS.setMode v st = ({ st with currentMode := validateMode v }, false, none)) := by
  constructor
  · intro v st hne hinit
    simp only [FitScreenJS.setMode, Scaler.setMode]
    rw [if_pos ⟨Ne.symm hne, by simp [hinit]⟩]
  · intro v st h
    simp only [FitScreenJS.setMode, Scaler.setMode]
    rw [if_neg]
    rintro ⟨h1, h2⟩
    rcases h with h | h
    · exact h1 h.symm
    · simp [h] at h2

/-- State of a machine that has been bound and refreshed once:
container 800 by 600, design size 1600 by 900, proportional mode,
initialized, a mode-change callback registered. -/
def initializedState : Scaler.State :=
  { container := some ⟨800, 600⟩
    content := true
    designSize := ⟨1600, 900⟩
    currentScale := 1
    currentScaleX := 1
    currentScaleY := 1
    currentMode := Mode.proportional
    isInit := true
    onModeChangePresent := true }

/-- Witness for C5: switching an initialized proportional machine to
"FULLSCREEN" refreshes and notifies with the fullscreen mode. -/
theorem setMode_spec_witness :
    validateMode (.vstr "FULLSCREEN") ≠ initializedState.currentMode ∧
    FitScreenJS.setMode (.vstr "FULLSCREEN") initializedState =
      (Scaler.refresh { initializedState with currentMode := validateMode (.vstr "FULLSCREEN") },
        true,
        if initializedState.onModeChangePresent then some (validateMode (.vstr "FULLSCREEN"))
        else none) :=
  ⟨by decide, setMode_spec.1 (.vstr "FULLSCREEN") initializedState (by decide) rfl⟩

/-- C8: `setDesignSize` stores the new design size and triggers a
recompute exactly when both dimensions are positive; any other input
is silently ignored, leaving the whole state unchanged. -/
theorem setDesignSize_spec :
    (∀ (w h : ℚ) (st : Scaler.State), 0 < w → 0 < h →
      Scaler.setDesignSize w h st =
        (Scaler.refresh { st with designSize := ⟨w, h⟩ }, true) ∧
      (Scaler.setDesignSize w h st).1.designSize = ⟨w, h⟩) ∧
    (∀ (w h : ℚ) (st : Scaler.State), ¬ (0 < w ∧ 0 < h) →
      Scaler.setDesignSize w h st = (st, false)) := by
  constructor
  · intro w h st hw hh
    have he : Scaler.setDesignSize w h st =
        (Scaler.refresh { st with designSize := ⟨w, h⟩ }, true) := by
      simp [Scaler.setDesignSize, hw, hh]
    refine ⟨he, ?_⟩
    rw [he]
    simpa using refresh_designSize { st with designSize := ⟨w, h⟩ }
  · intro w h st hno
    simp [Scaler.setDesignSize, hno]

/-- Witness for C8 at design size 1600 by 900 on a fresh state. -/
theorem setDesignSize_spec_witness :
    (0 : ℚ) < 1600 ∧
    (Scaler.setDesignSize 1600 900 (Scaler.mkState Mode.proportional false) =
      (Scaler.refresh
        { Scaler.mkState Mode.proportional false with designSize := ⟨1600, 900⟩ }, true) ∧
      (Scaler.setDesignSize 1600 900 (Scaler.mkState Mode.proportional false)).1.designSize =
        ⟨1600, 900⟩) :=
  ⟨by norm_num,
    setDesignSize_spec.1 1600 900 (Scaler.mkState Mode.proportional false) (by norm_num)
      (by norm_num)⟩

/-- Helper: once the destroyed flag is set, `destroy` is a no-op. -/
theorem destroy_destroyed_noop (st : FitScreenJS.FitState) (h : st.isDestroyed = true) :
    FitScreenJS.destroy st = (st, false) := by
  simp [FitScreenJS.destroy, h]

/-- Helper: a destroyed orchestrator never deregisters again, over any
number of further `destroy` calls. -/
theorem destroyCount_destroyed (n : ℕ) (st : FitScreenJS.FitState)
    (h : st.isDestroyed = true) : FitScreenJS.destroyCount n st = 0 := by
  induction n with
  | zero => rfl
  | succ n ih => simp [FitScreenJS.destroyCount, destroy_destroyed_noop st h, ih]

/-- C9: `destroy` deregisters the resize listener at most once: a
second `destroy` call is always a no-op that deregisters nothing, and
any sequence of `destroy` calls deregisters at most once in total. -/
theorem destroy_idempotent :
    (∀ st : FitScreenJS.FitState,
      FitScreenJS.destroy (FitScreenJS.destroy st).1 = ((FitScreenJS.destroy st).1, false)) ∧
    (∀ (st : FitScreenJS.FitState) (n : ℕ), FitScreenJS.destroyCount n st ≤ 1) := by
  constructor
  · intro st
    rcases st with ⟨i, d⟩
    cases i <;> cases d <;> rfl
  · intro st n
    induction n generalizing st with
    | zero => exact Nat.zero_le 1
    | succ n ih =>
      rcases st with ⟨i, d⟩
      cases i <;> cases d <;>
        simp [FitScreenJS.destroyCount, FitScreenJS.destroy, destroyCount_destroyed, ih]

/-- C10: in the scaler revision with independent scale factors, after a
refresh in fullscreen mode with both elements bound and a nonzero
design size, the stored scalar equals the maximum of the independent
pair. -/
theorem refresh_fullscreen_scale_max (st : Scaler.State) (c : Size)
    (hc : st.container = some c) (hct : st.content = true)
    (hw : 0 < st.designSize.width) (hh : 0 < st.designSize.height)
    (hm : st.currentMode = Mode.fullscreen) :
    (Scaler.refresh st).currentScale =
      max (Scaler.refresh st).currentScaleX (Scaler.refresh st).currentScaleY := by
  have hd : ¬ (st.designSize.width = 0 ∨ st.designSize.height = 0) := by
    push_neg
    exact ⟨ne_of_gt hw, ne_of_gt hh⟩
  simp [Scaler.refresh, Scaler.applyScaling, Scaler.calculateCurrentScale, hc, hct, hm, hd,
    calculateScale, calculateNonProportionalScale]

/-- C3: `determineDesignSize` takes the first valid source in the fixed
priority order — explicit configured size, aspect ratio combined with
the viewport, previously detected size, measured content size when
`autoDetect` is on, then the viewport (container) size itself — a size
source being valid iff both dimensions are present and positive and
the ratio source iff the ratio is present and positive; it never
fails, returning the 1920 by 1080 default when no source is valid, in
particular for an absent or zero-sized viewport with nothing
configured. -/
theorem determineDesignSize_spec :
    (∀ (opts : DSOptions) (screen : Size) (container contentMeasure : Option Size) (w h : ℚ),
      opts.designWidth = some w → opts.designHeight = some h → 0 < w → 0 < h →
      determineDesignSize opts screen container contentMeasure = ⟨w, h⟩) ∧
    (∀ (opts : DSOptions) (screen : Size) (container contentMeasure : Option Size) (r : ℚ),
      dsExplicit opts = none → opts.aspectRatio = some r → 0 < r →
      determineDesignSize opts screen container contentMeasure =
        ratioDesignSize (container.getD screen) r) ∧
    (∀ (opts : DSOptions) (screen : Size) (container contentMeasure : Option Size) (w h : ℚ),
      dsExplicit opts = none → dsRatio opts screen container = none →
      opts.detectedWidth = some w → opts.detectedHeight = some h → 0 < w → 0 < h →
      determineDesignSize opts screen container contentMeasure = ⟨w, h⟩) ∧
    (∀ (opts : DSOptions) (screen : Size) (container : Option Size) (m : Size),
      dsExplicit opts = none → dsRatio opts screen container = none → dsDetected opts = none →
      opts.autoDetect = true → 0 < m.width → 0 < m.height →
      determineDesignSize opts screen container (some m) = m) ∧
    (∀ (opts : DSOptions) (screen : Size) (contentMeasure : Option Size) (c : Size),
      dsExplicit opts = none → dsRatio opts screen (some c) = none → dsDetected opts = none →
      dsMeasured opts contentMeasure = none → 0 < c.width → 0 < c.height →
      determineDesignSize opts screen (some c) contentMeasure = c) ∧
    (∀ (opts : DSOptions) (screen : Size) (container contentMeasure : Option Size),
      dsExplicit opts = none → dsRatio opts screen container = none → dsDetected opts = none →
      dsMeasured opts contentMeasure = none → dsContainer container = none →
      determineDesignSize opts screen container contentMeasure = DEFAULT_DESIGN) ∧
    (∀ screen : Size,
      determineDesignSize ⟨none, none, none, false, none, none⟩ screen none none =
        ⟨1920, 1080⟩) ∧
    (∀ screen c : Size, c.width = 0 ∨ c.height = 0 →
      determineDesignSize ⟨none, none, none, false, none, none⟩ screen (some c) none =
        ⟨1920, 1080⟩) := by
  refine ⟨?_, ?_, ?_, ?_, ?_, ?_, ?_, ?_⟩
  · intro opts screen container contentMeasure w h hdw hdh hw hh
    have he : dsExplicit opts = some ⟨w, h⟩ := by simp [dsExplicit, hdw, hdh, hw, hh]
    simp [determineDesignSize, he]
  · intro opts screen container contentMeasure r hexp har hr
    have hrt : dsRatio opts screen container =
        some (ratioDesignSize (container.getD screen) r) := by
      simp [dsRatio, har, hr]
    simp [determineDesignSize, hexp, hrt]
  · intro opts screen container contentMeasure w h hexp hrt hdw hdh hw hh
    have hd : dsDetected opts = some ⟨w, h⟩ := by simp [dsDetected, hdw, hdh, hw, hh]
    simp [determineDesignSize, hexp, hrt, hd]
  · intro opts screen container m hexp hrt hdet hauto hw hh
    have hm : dsMeasured opts (some m) = some m := by simp [dsMeasured, hauto, hw, hh]
    simp [determineDesignSize, hexp, hrt, hdet, hm]
  · intro opts screen contentMeasure c hexp hrt hdet hmea hw hh
    have hcv : dsContainer (some c) = some c := by simp [dsContainer, hw, hh]
    simp [determineDesignSize, hexp, hrt, hdet, hmea, hcv]
  · intro opts screen container contentMeasure hexp hrt hdet hmea hcont
    simp [determineDesignSize, hexp, hrt, hdet, hmea, hcont]
  · intro screen
    simp [determineDesignSize, dsExplicit, dsRatio, dsDetected, dsMeasured, dsContainer,
      DEFAULT_DESIGN]
  · intro screen c hzero
    have hcv : dsContainer (some c) = none := by
      rcases hzero with h | h <;> simp [dsContainer, h]
    simp [determineDesignSize, dsExplicit, dsRatio, dsDetected, dsMeasured, hcv,
      DEFAULT_DESIGN]

/-- Witness for C3: an explicitly configured 1600 by 900 design size
wins over every other source. -/
theorem determineDesignSize_spec_witness :
    determineDesignSize ⟨some 1600, some 900, some (16 / 9), true, some 10, some 10⟩
      ⟨1024, 768⟩ (some ⟨800, 600⟩) (some ⟨640, 480⟩) = ⟨1600, 900⟩ :=
  determineDesignSize_spec.1 ⟨some 1600, some 900, some (16 / 9), true, some 10, some 10⟩
    ⟨1024, 768⟩ (some ⟨800, 600⟩) (some ⟨640, 480⟩) 1600 900 rfl rfl (by norm_num)
    (by norm_num)

/-- C4 counterexample: at viewport 100 by 100 with target ratio 16:9
the ratio source computes the rounded size 100 by 56, whose ratio is
not exactly 16/9 — rounding breaks the claimed exact ratio match. -/
theorem ratioDesignSize_exact_cex :
    ratioDesignSize ⟨100, 100⟩ (16 / 9) = ⟨100, 56⟩ ∧
    ((100 : ℚ) / 56 ≠ 16 / 9) := by
  constructor
  · have hfl : jsRound ((100 : ℚ) / (16 / 9)) = 56 := by
      have : ((100 : ℚ) / (16 / 9) + 1 / 2) = 227 / 4 := by norm_num
      rw [jsRound, this]
      rw [Int.floor_eq_iff]
      norm_num
    have hgt : jsDivGt (100 : ℚ) 100 (16 / 9) = false := by
      rw [jsDivGt, if_neg (by norm_num : (100 : ℚ) ≠ 0)]
      norm_num
    simp [ratioDesignSize, hgt, hfl]
  · norm_num

/-- C4 amended: for every positive integer viewport and positive target
ratio, the ratio-source design size never exceeds the viewport along
either axis, and matches the target ratio up to rounding — the rounded
dimension is within 1/2 of the exact ratio-matching value; at viewport
1024 by 768 with ratio 16:9 the resolved size is 1024 by 576, whose
ratio is within 0.1 of 16/9 and whose width exceeds its height. -/
theorem ratioDesignSize_bounds :
    (∀ (vw vh : ℤ) (r : ℚ), 0 < vw → 0 < vh → 0 < r →
      (ratioDesignSize ⟨(vw : ℚ), (vh : ℚ)⟩ r).width ≤ (vw : ℚ) ∧
      (ratioDesignSize ⟨(vw : ℚ), (vh : ℚ)⟩ r).height ≤ (vh : ℚ) ∧
      (|(ratioDesignSize ⟨(vw : ℚ), (vh : ℚ)⟩ r).width -
          (ratioDesignSize ⟨(vw : ℚ), (vh : ℚ)⟩ r).height * r| ≤ 1 / 2 ∨
        |(ratioDesignSize ⟨(vw : ℚ), (vh : ℚ)⟩ r).height -
          (ratioDesignSize ⟨(vw : ℚ), (vh : ℚ)⟩ r).width / r| ≤ 1 / 2)) ∧
    (ratioDesignSize ⟨1024, 768⟩ (16 / 9) = ⟨1024, 576⟩ ∧
      |(1024 : ℚ) / 576 - 16 / 9| ≤ 1 / 10 ∧ (576 : ℚ) < 1024) := by
  constructor
  · intro vw vh r hvw hvh hr
    have hvwQ : (0 : ℚ) < (vw : ℚ) := by exact_mod_cast hvw
    have hvhQ : (0 : ℚ) < (vh : ℚ) := by exact_mod_cast hvh
    have hvh0 : ((vh : ℚ)) ≠ 0 := ne_of_gt hvhQ
    by_cases hlt : r < (vw : ℚ) / (vh : ℚ)
    · have hcond : jsDivGt ((vw : ℚ)) ((vh : ℚ)) r = true := by
        rw [jsDivGt, if_neg hvh0]
        exact decide_eq_true hlt
      simp only [ratioDesignSize, hcond, if_true]
      have hmul : (vh : ℚ) * r < (vw : ℚ) := by
        have := (lt_div_iff₀ hvhQ).mp hlt
        linarith [mul_comm r ((vh : ℚ))]
      have hfl1 : (↑⌊(vh : ℚ) * r + 1 / 2⌋ : ℚ) ≤ (vh : ℚ) * r + 1 / 2 :=
        Int.floor_le _
      have hfl2 : (vh : ℚ) * r + 1 / 2 - 1 < (↑⌊(vh : ℚ) * r + 1 / 2⌋ : ℚ) :=
        Int.sub_one_lt_floor _
      refine ⟨?_, le_refl _, Or.inl ?_⟩
      · have hintlt : ⌊(vh : ℚ) * r + 1 / 2⌋ < vw + 1 := by
          have : (↑⌊(vh : ℚ) * r + 1 / 2⌋ : ℚ) < (vw : ℚ) + 1 := by linarith
          exact_mod_cast this
        have : ⌊(vh : ℚ) * r + 1 / 2⌋ ≤ vw := Int.lt_add_one_iff.mp hintlt
        simpa [jsRound] using (by exact_mod_cast this :
          (↑⌊(vh : ℚ) * r + 1 / 2⌋ : ℚ) ≤ (vw : ℚ))
      · simp only [jsRound]
        rw [abs_le]
        constructor <;> linarith
    · have hcond : jsDivGt ((vw : ℚ)) ((vh : ℚ)) r = false := by
        rw [jsDivGt, if_neg hvh0]
        exact decide_eq_false hlt
      simp only [ratioDesignSize, hcond, Bool.false_eq_true, if_false]
      have hle : (vw : ℚ) ≤ (vh : ℚ) * r := by
        have := (div_le_iff₀ hvhQ).mp (le_of_not_lt hlt)
        linarith [mul_comm r ((vh : ℚ))]
      have hdivle : (vw : ℚ) / r ≤ (vh : ℚ) := by
        rw [div_le_iff₀ hr]
        linarith [mul_comm ((vh : ℚ)) r]
      have hfl1 : (↑⌊(vw : ℚ) / r + 1 / 2⌋ : ℚ) ≤ (vw : ℚ) / r + 1 / 2 :=
        Int.floor_le _
      have hfl2 : (vw : ℚ) / r + 1 / 2 - 1 < (↑⌊(vw : ℚ) / r + 1 / 2⌋ : ℚ) :=
        Int.sub_one_lt_floor _
      refine ⟨le_refl _, ?_, Or.inr ?_⟩
      · have hintlt : ⌊(vw : ℚ) / r + 1 / 2⌋ < vh + 1 := by
          have : (↑⌊(vw : ℚ) / r + 1 / 2⌋ : ℚ) < (vh : ℚ) + 1 := by linarith
          exact_mod_cast this
        have : ⌊(vw : ℚ) / r + 1 / 2⌋ ≤ vh := Int.lt_add_one_iff.mp hintlt
        simpa [jsRound] using (by exact_mod_cast this :
          (↑⌊(vw : ℚ) / r + 1 / 2⌋ : ℚ) ≤ (vh : ℚ))
      · simp only [jsRound]
        rw [abs_le]
        constructor <;> linarith
  · refine ⟨?_, by norm_num, by norm_num⟩
    have hfl : jsRound ((1024 : ℚ) / (16 / 9)) = 576 := by
      have : ((1024 : ℚ) / (16 / 9) + 1 / 2) = 1153 / 2 := by norm_num
      rw [jsRound, this]
      rw [Int.floor_eq_iff]
      norm_num
    have hgt : jsDivGt (1024 : ℚ) 768 (16 / 9) = false := by
      rw [jsDivGt, if_neg (by norm_num : (768 : ℚ) ≠ 0)]
      norm_num
    simp [ratioDesignSize, hgt, hfl]

/-- Witness for the C4 amended theorem at viewport 1024 by 768 and
ratio 16:9. -/
theorem ratioDesignSize_bounds_witness :
    (0 : ℤ) < 1024 ∧
    ((ratioDesignSize ⟨((1024 : ℤ) : ℚ), ((768 : ℤ) : ℚ)⟩ (16 / 9)).width ≤ ((1024 : ℤ) : ℚ) ∧
      (ratioDesignSize ⟨((1024 : ℤ) : ℚ), ((768 : ℤ) : ℚ)⟩ (16 / 9)).height ≤ ((768 : ℤ) : ℚ) ∧
      (|(ratioDesignSize ⟨((1024 : ℤ) : ℚ), ((768 : ℤ) : ℚ)⟩ (16 / 9)).width -
          (ratioDesignSize ⟨((1024 : ℤ) : ℚ), ((768 : ℤ) : ℚ)⟩ (16 / 9)).height * (16 / 9)| ≤
          1 / 2 ∨
        |(ratioDesignSize ⟨((1024 : ℤ) : ℚ), ((768 : ℤ) : ℚ)⟩ (16 / 9)).height -
          (ratioDesignSize ⟨((1024 : ℤ) : ℚ), ((768 : ℤ) : ℚ)⟩ (16 / 9)).width / (16 / 9)| ≤
          1 / 2)) :=
  ⟨by norm_num,
    ratioDesignSize_bounds.1 1024 768 (16 / 9) (by norm_num) (by norm_num) (by norm_num)⟩

/-- Witness for C10 on a fullscreen state with container 800 by 600
and design size 1600 by 900. -/
theorem refresh_fullscreen_scale_max_witness :
    (Scaler.refresh { initializedState with currentMode := Mode.fullscreen }).currentScale =
      max (Scaler.refresh { initializedState with currentMode := Mode.fullscreen }).currentScaleX
        (Scaler.refresh { initializedState with currentMode := Mode.fullscreen }).currentScaleY :=
  refresh_fullscreen_scale_max { initializedState with currentMode := Mode.fullscreen }
    ⟨800, 600⟩ rfl rfl (by norm_num [initializedState]) (by norm_num [initializedState]) rfl

end FitScreen
